import Mathlib

/-!
Shallow embedding of the metrics-exporter core of `mayastor-extensions`:

* `src/metrics-exporter/src/bin/io_engine/client/grpc_client.rs`
  (the version-aware gRPC connection manager `GrpcClient`),
* `src/metrics-exporter/src/bin/io_engine/collector/pool.rs`
  (the `PoolCapacityCollector` and `PoolStatusCollector` prometheus
  collectors), and
* `src/k8s/supportability/src/collect/utils.rs`
  (the process-wide diagnostic log sink for the support tool).

Rust machine integers (`u64`) are modelled as `Nat` (no arithmetic is
performed on them in the embedded code, values are only copied into metric
samples, so no overflow semantics are needed).  Fallible Rust code returns
`Except`/`Option`.  Asynchronous effects (the connect retry loop, lock
acquisition, label lookup failures of the `prometheus` crate, file writes)
are modelled by explicit environment values that record the outcome of
each external interaction.
-/

set_option autoImplicit false

/-! ### Connection-manager data model (grpc_client.rs) -/

/-- Rust `ApiVersion` selector: the two mutually exclusive RPC surfaces. -/
inductive ApiVersion where
  | V0
  | V1
  deriving DecidableEq, Repr

/-- Rust `Timeouts {connect, request}`; durations modelled in seconds. -/
structure Timeouts where
  connect : Nat
  request : Nat
  deriving DecidableEq, Repr

/-- Rust `GrpcContext {endpoint, timeouts, api_version}`; the endpoint is
modelled by its URI string. -/
structure GrpcContext where
  endpoint : String
  timeouts : Timeouts
  api_version : ApiVersion
  deriving DecidableEq, Repr

/-- Abstract handle for a live `IoEngineClientV0<Channel>` transport. -/
structure MayaClientV0 where
  id : Nat
  deriving DecidableEq, Repr

/-- Abstract handle for a live `PoolRpcClient<Channel>` transport. -/
structure PoolClient where
  id : Nat
  deriving DecidableEq, Repr

/-- Rust `MayaClientV1 { pool: PoolClient }`. -/
structure MayaClientV1 where
  pool : PoolClient
  deriving DecidableEq, Repr

/-- The variants of `ExporterError` that the embedded code constructs or
returns. -/
inductive ExporterError where
  | GrpcClientError (msg : String)
  | InvalidURI (msg : String)
  | GetNodeError (msg : String)
  deriving DecidableEq, Repr

/-- Outcome of one `tokio::time::timeout(_, connect(_))` attempt, as observed
by the retry loop in `GrpcClient::new`: the surrounding timeout fires, or the
transport reports an error, or the connect succeeds with a handle. -/
inductive AttemptOutcome (H : Type) where
  | timeout
  | transportError
  | success (handle : H)
  deriving DecidableEq, Repr

/-- An attempt that did not produce a handle (timeout or transport error). -/
def AttemptOutcome.isFailure {H : Type} : AttemptOutcome H → Bool
  | .timeout => true
  | .transportError => true
  | .success _ => false

/-- Transport behaviour for a run of `GrpcClient::new`: the sequence of
outcomes the environment hands to successive connect attempts, one list per
protocol version (only the list matching `api_version` is consulted). -/
structure GrpcEnv where
  v0Attempts : List (AttemptOutcome MayaClientV0)
  v1Attempts : List (AttemptOutcome PoolClient)

/-- Rust `GrpcClient {ctx, v0_client, v1_client}`. -/
structure GrpcClient where
  ctx : GrpcContext
  v0_client : Option MayaClientV0
  v1_client : Option MayaClientV1
  deriving DecidableEq, Repr

/-- The retry loop of `GrpcClient::new`, generic over the handle type: walk
the environment's attempt outcomes; a timeout or transport error is logged
and followed by `sleep(Duration::from_secs(10))`, a success returns the
handle.  The result records the handle, the number of failed attempts, and
the list of sleep durations performed (one 10-second sleep after every
failed attempt).  `none` models the loop never returning because the
environment never yields a success. -/
def connectLoop {H : Type} : List (AttemptOutcome H) → Option (H × Nat × List Nat)
  | [] => none
  | .success h :: _ => some (h, 0, [])
  | .timeout :: rest =>
      (connectLoop rest).map (fun r => (r.1, r.2.1 + 1, 10 :: r.2.2))
  | .transportError :: rest =>
      (connectLoop rest).map (fun r => (r.1, r.2.1 + 1, 10 :: r.2.2))

/-- Rust `GrpcClient::new(context)`: select the client surface by
`context.api_version`, loop over connect attempts, and on the first success
return `Ok(Self {ctx, v0_client, v1_client})` with exactly the matching
handle populated.  Alongside the returned `Result` we expose the number of
failed attempts and the sleeps performed; `none` models divergence (the
environment never lets a connect succeed). -/
def GrpcClient.new (context : GrpcContext) (env : GrpcEnv) :
    Option (Except ExporterError GrpcClient × Nat × List Nat) :=
  match context.api_version with
  | .V0 =>
      (connectLoop env.v0Attempts).map (fun r =>
        (Except.ok { ctx := context, v0_client := some r.1, v1_client := none },
         r.2.1, r.2.2))
  | .V1 =>
      (connectLoop env.v1Attempts).map (fun r =>
        (Except.ok { ctx := context, v0_client := none,
                     v1_client := some { pool := r.1 } },
         r.2.1, r.2.2))

/-- Rust `GrpcClient::client_v0`. -/
def GrpcClient.client_v0 (self : GrpcClient) : Except ExporterError MayaClientV0 :=
  match self.v0_client with
  | some client => .ok client
  | none => .error (.GrpcClientError "Could not get v0 client")

/-- Rust `GrpcClient::client_v1`. -/
def GrpcClient.client_v1 (self : GrpcClient) : Except ExporterError MayaClientV1 :=
  match self.v1_client with
  | some client => .ok client
  | none => .error (.GrpcClientError "Could not get v1 client")

/-- Rust `GrpcClient::api_version`. -/
def GrpcClient.api_version (self : GrpcClient) : ApiVersion :=
  self.ctx.api_version

/-! ### Pool collector data model (collector/pool.rs) -/

/-- Cached `PoolInfo` record as read by the collectors (the fields behind the
accessors `name()`, `capacity()`, `used()`, `committed()`, `state()`). -/
structure PoolInfo where
  name : String
  capacity : Nat
  used : Nat
  committed : Nat
  state : Nat
  deriving DecidableEq, Repr

/-- Model of a prometheus `GaugeVec` with variable-label schema
`["node", "name"]`: the fully-qualified metric name fixed at construction,
plus the children accumulated so far, a map from label-value tuples to the
last value set.  Gauge values are kept as the exact integers the collectors
write (the Rust code casts `u64` to `f64` at this point; the claims compare
the written integers, so the cast is dropped in the model). -/
structure GaugeVec where
  fqName : String
  children : List (List String × Nat)
  deriving DecidableEq, Repr

/-- Value stored for a label-value tuple in a children map. -/
def gvLookup : List (List String × Nat) → List String → Option Nat
  | [], _ => none
  | c :: rest, vals => if c.1 = vals then some c.2 else gvLookup rest vals

/-- Whether a child exists for a label-value tuple. -/
def gvContains : List (List String × Nat) → List String → Bool
  | [], _ => false
  | c :: rest, vals => c.1 = vals || gvContains rest vals

/-- Overwrite the value of the child with the given label-value tuple. -/
def gvSetVal : List (List String × Nat) → List String → Nat → List (List String × Nat)
  | [], _, _ => []
  | c :: rest, vals, v =>
      if c.1 = vals then (c.1, v) :: gvSetVal rest vals v
      else c :: gvSetVal rest vals v

/-- Success path of `get_metric_with_label_values`: return the vector with
the child for `vals` present, creating it (initial value 0) if absent. -/
def GaugeVec.ensure (g : GaugeVec) (vals : List String) : GaugeVec :=
  if gvContains g.children vals then g
  else { g with children := g.children ++ [(vals, 0)] }

/-- `Gauge::set` on the child for `vals` (a shared reference into the
vector's children map). -/
def GaugeVec.setChild (g : GaugeVec) (vals : List String) (v : Nat) : GaugeVec :=
  { g with children := gvSetVal g.children vals v }

/-- One record pushed into the `collect()` output.  The Rust code collects a
single child gauge into a `MetricFamily` holding exactly one metric, so each
record is a (metric name, label pairs, value) triple. -/
structure Sample where
  metricName : String
  labelPairs : List (String × String)
  value : Nat
  deriving DecidableEq, Repr

/-- Collect of a single child gauge (`child.collect()` followed by
`Vec::pop` in the source): one sample carrying the variable-label pairs and
the child's current value. -/
def GaugeVec.childCollect (g : GaugeVec) (vals : List String) : Sample :=
  { metricName := g.fqName,
    labelPairs := (["node", "name"]).zip vals,
    value := (gvLookup g.children vals).getD 0 }

/-- Per-scrape environment: the outcome of `Cache::get_cache().lock()`
(the pools currently in the cache, or a poisoned-lock error), the outcome of
`get_node_name()`, and the failure behaviour of
`get_metric_with_label_values` on a label-value tuple.  In the prometheus
crate that call fails based only on the label values checked against the
vector's variable-label schema, and every gauge vector of these collectors
is declared with the same schema `["node", "name"]`, so one predicate
models the call for all of them. -/
structure CollectEnv where
  lock : Except String (List PoolInfo)
  nodeName : Except String String
  labelFail : List String → Bool

/-- Rust `PoolCapacityCollector` (the `descs` field is static metadata not
used by `collect`). -/
structure PoolCapacityCollector where
  pool_total_size : GaugeVec
  pool_used_size : GaugeVec
  pool_committed_size : GaugeVec
  deriving DecidableEq, Repr

/-- Rust `PoolCapacityCollector::new`: three gauge vectors with subsystem
`disk_pool` and the metric names of the source, no children yet. -/
def PoolCapacityCollector.new : PoolCapacityCollector :=
  { pool_total_size := { fqName := "disk_pool_total_size_bytes", children := [] },
    pool_used_size := { fqName := "disk_pool_used_size_bytes", children := [] },
    pool_committed_size := { fqName := "disk_pool_committed_size_bytes", children := [] } }

/-- A capacity collector with the construction-time metric names and
arbitrary accumulated children (the gauge state left by earlier scrapes). -/
def PoolCapacityCollector.withChildren
    (c1 c2 c3 : List (List String × Nat)) : PoolCapacityCollector :=
  { pool_total_size := { fqName := "disk_pool_total_size_bytes", children := c1 },
    pool_used_size := { fqName := "disk_pool_used_size_bytes", children := c2 },
    pool_committed_size := { fqName := "disk_pool_committed_size_bytes", children := c3 } }

/-- The `for i in &cp.pool_mut().pools` loop of
`PoolCapacityCollector::collect`: for each pool, three
get-label-values / set / collect-child steps, each aborting the whole call
(returning the samples accumulated so far) when the label lookup fails. -/
def capacityLoop (lf : List String → Bool) (node : String) :
    List PoolInfo → PoolCapacityCollector → List Sample × PoolCapacityCollector
  | [], self => ([], self)
  | p :: rest, self =>
      let vals := [node, p.name]
      if lf vals then ([], self)
      else
        let g1 := (self.pool_total_size.ensure vals).setChild vals p.capacity
        let s1 := g1.childCollect vals
        let self1 := { self with pool_total_size := g1 }
        if lf vals then ([s1], self1)
        else
          let g2 := (self1.pool_used_size.ensure vals).setChild vals p.used
          let s2 := g2.childCollect vals
          let self2 := { self1 with pool_used_size := g2 }
          if lf vals then ([s1, s2], self2)
          else
            let g3 := (self2.pool_committed_size.ensure vals).setChild vals p.committed
            let s3 := g3.childCollect vals
            let self3 := { self2 with pool_committed_size := g3 }
            let r := capacityLoop lf node rest self3
            (s1 :: s2 :: s3 :: r.1, r.2)

/-- Rust `PoolCapacityCollector::collect`: acquire the cache lock (empty
output on failure), resolve the node name (empty output on failure), then
run the per-pool loop.  The returned pair is (emitted samples, collector
with its updated gauge state). -/
def PoolCapacityCollector.collect (self : PoolCapacityCollector)
    (env : CollectEnv) : List Sample × PoolCapacityCollector :=
  match env.lock with
  | .error _ => ([], self)
  | .ok pools =>
      match env.nodeName with
      | .error _ => ([], self)
      | .ok node_name => capacityLoop env.labelFail node_name pools self

/-- Rust `PoolStatusCollector`. -/
structure PoolStatusCollector where
  pool_status : GaugeVec
  deriving DecidableEq, Repr

/-- Rust `PoolStatusCollector::new`. -/
def PoolStatusCollector.new : PoolStatusCollector :=
  { pool_status := { fqName := "disk_pool_status", children := [] } }

/-- A status collector with the construction-time metric name and arbitrary
accumulated children. -/
def PoolStatusCollector.withChildren
    (c : List (List String × Nat)) : PoolStatusCollector :=
  { pool_status := { fqName := "disk_pool_status", children := c } }

/-- The per-pool loop of `PoolStatusCollector::collect`. -/
def statusLoop (lf : List String → Bool) (node : String) :
    List PoolInfo → PoolStatusCollector → List Sample × PoolStatusCollector
  | [], self => ([], self)
  | p :: rest, self =>
      let vals := [node, p.name]
      if lf vals then ([], self)
      else
        let g := (self.pool_status.ensure vals).setChild vals p.state
        let s := g.childCollect vals
        let self1 : PoolStatusCollector := { pool_status := g }
        let r := statusLoop lf node rest self1
        (s :: r.1, r.2)

/-- Rust `PoolStatusCollector::collect`. -/
def PoolStatusCollector.collect (self : PoolStatusCollector)
    (env : CollectEnv) : List Sample × PoolStatusCollector :=
  match env.lock with
  | .error _ => ([], self)
  | .ok pools =>
      match env.nodeName with
      | .error _ => ([], self)
      | .ok node_name => statusLoop env.labelFail node_name pools self

/-- The three samples the capacity collector emits for one pool when no
labeling error occurs (used to state the collector theorems). -/
def capacitySamples (node : String) (p : PoolInfo) : List Sample :=
  [ { metricName := "disk_pool_total_size_bytes",
      labelPairs := [("node", node), ("name", p.name)], value := p.capacity },
    { metricName := "disk_pool_used_size_bytes",
      labelPairs := [("node", node), ("name", p.name)], value := p.used },
    { metricName := "disk_pool_committed_size_bytes",
      labelPairs := [("node", node), ("name", p.name)], value := p.committed } ]

/-- The sample the status collector emits for one pool when no labeling
error occurs. -/
def statusSample (node : String) (p : PoolInfo) : Sample :=
  { metricName := "disk_pool_status",
    labelPairs := [("node", node), ("name", p.name)], value := p.state }

/-- The samples of the capacity loop as a function of the cache contents
alone: full triples for the pools before the first labeling failure,
nothing from that pool on. -/
def capacityLoopSpec (lf : List String → Bool) (node : String) :
    List PoolInfo → List Sample
  | [] => []
  | p :: rest =>
      if lf [node, p.name] then []
      else capacitySamples node p ++ capacityLoopSpec lf node rest

/-- The samples of the status loop as a function of the cache contents
alone. -/
def statusLoopSpec (lf : List String → Bool) (node : String) :
    List PoolInfo → List Sample
  | [] => []
  | p :: rest =>
      if lf [node, p.name] then []
      else statusSample node p :: statusLoopSpec lf node rest

/-! ### Diagnostic log sink (k8s/supportability src/collect/utils.rs) -/

/-- Abstract handle for an open `std::fs::File`. -/
structure File where
  id : Nat
  deriving DecidableEq, Repr

/-- The I/O errors of the log-sink model: the `NotFound` error built when
the once-cell is uninitialised, plus abstract file-creation and file-write
errors supplied by the environment. -/
inductive IoError where
  | notFound (msg : String)
  | createFailed (code : Nat)
  | writeFailed (code : Nat)
  deriving DecidableEq, Repr

/-- Display string of an error (the `{e}` interpolation in the source). -/
def IoError.message : IoError → String
  | .notFound msg => msg
  | .createFailed code => "create error " ++ toString code
  | .writeFailed code => "write error " ++ toString code

/-- State of the `TOOL_LOG_FILE` once-cell: `none` is the uninitialised
cell, `some none` a cell initialised with no log file, `some (some f)` a
cell initialised with an open file. -/
abbrev LogCell : Type := Option (Option File)

/-- Rust `write_to_log_file(content)`: a `NotFound` error if the once-cell
is uninitialised, a silent success when it was initialised with `None`, and
otherwise `file.write_all(content.as_bytes())`, whose outcome the
environment's `writeAll` supplies. -/
def write_to_log_file (cell : LogCell)
    (writeAll : File → String → Except IoError Unit) (content : String) :
    Except IoError Unit :=
  match cell with
  | none => .error (.notFound "LogFile not initialised!")
  | some none => .ok ()
  | some (some file) => writeAll file content

/-- Rust `log(content)`: `println!` the content, then try
`write_to_log_file("{content}\n")`, mapping a failure to one more console
line and discarding the result.  The returned list is the sequence of
console lines; the function is total — it returns for every cell state and
write behaviour, never surfacing an error to the caller. -/
def log (cell : LogCell)
    (writeAll : File → String → Except IoError Unit) (content : String) :
    List String :=
  match write_to_log_file cell writeAll (content ++ "\n") with
  | .ok _ => [content]
  | .error e =>
      [content, "Not be able to write to log file, error: " ++ e.message]

/-- Decidable equality for `Except`, so that witnesses can be checked by
evaluation. -/
instance {ε α : Type} [DecidableEq ε] [DecidableEq α] :
    DecidableEq (Except ε α) := fun x y =>
  match x, y with
  | .ok a, .ok b =>
      if h : a = b then .isTrue (congrArg Except.ok h)
      else .isFalse (fun hc => h (Except.ok.inj hc))
  | .ok _, .error _ => .isFalse (fun hc => Except.noConfusion hc)
  | .error _, .ok _ => .isFalse (fun hc => Except.noConfusion hc)
  | .error e, .error f =>
      if h : e = f then .isTrue (congrArg Except.error h)
      else .isFalse (fun hc => h (Except.error.inj hc))

/-- How a call to one of the init functions ends: either it returns (with
its `Result` and the new cell state) or it panics inside
`OnceCell::set(..).expect(..)`. -/
inductive InitOutcome where
  | returns (r : Except IoError Unit) (cell : LogCell)
  | panics
  deriving DecidableEq, Repr

/-- Rust `init_tool_log_file(file_path)`: `File::create(file_path)` runs
first (outcome supplied by the environment); on creation failure the `?`
operator returns the error before the cell is touched; on success
`TOOL_LOG_FILE.set(Some(file)).expect(..)` panics when the cell is already
set. -/
def init_tool_log_file (cell : LogCell)
    (createResult : Except IoError File) : InitOutcome :=
  match createResult with
  | .error e => .returns (.error e) cell
  | .ok file =>
      match cell with
      | none => .returns (.ok ()) (some (some file))
      | some _ => .panics

/-- Rust `init_no_log_file()`: `TOOL_LOG_FILE.set(None).expect(..)` — set
the cell to `Some(None)`, panicking when it is already set.  (The Rust
function returns unit; the `Except` in the outcome is used for uniformity
with its sibling and is always `ok` here.) -/
def init_no_log_file (cell : LogCell) : InitOutcome :=
  match cell with
  | none => .returns (.ok ()) (some none)
  | some _ => .panics

/-! ### Concrete fixtures for witnesses and counterexamples -/

/-- Concrete V0 connection context for the connection-manager witnesses. -/
def ctxW0 : GrpcContext :=
  { endpoint := "https://10.1.2.3:10124",
    timeouts := { connect := 1, request := 5 },
    api_version := ApiVersion.V0 }

/-- Concrete transport behaviour: two failed attempts, then success. -/
def envW0 : GrpcEnv :=
  { v0Attempts := [AttemptOutcome.timeout, AttemptOutcome.transportError,
      AttemptOutcome.success { id := 7 }],
    v1Attempts := [] }

/-- The manager `GrpcClient.new ctxW0 envW0` returns. -/
def gW0 : GrpcClient :=
  { ctx := ctxW0, v0_client := some { id := 7 }, v1_client := none }

/-- First pool of the spec's scenario cache. -/
def poolA : PoolInfo :=
  { name := "pool-a", capacity := 1000, used := 200, committed := 500,
    state := 1 }

/-- Second pool of the spec's scenario cache. -/
def poolB : PoolInfo :=
  { name := "pool-b", capacity := 2000, used := 0, committed := 0,
    state := 0 }

/-- The spec's scenario environment: both pools cached, node `node-1`, no
lock, resolution, or labeling failures. -/
def envScenario : CollectEnv :=
  { lock := Except.ok [poolA, poolB], nodeName := Except.ok "node-1",
    labelFail := fun _ => false }

/-- Scenario environment whose labeling fails exactly on `pool-b`. -/
def envFailB : CollectEnv :=
  { lock := Except.ok [poolA, poolB], nodeName := Except.ok "node-1",
    labelFail := fun vals => vals.contains "pool-b" }

/-- A cached pool whose name is the empty string. -/
def poolEmptyName : PoolInfo :=
  { name := "", capacity := 1, used := 2, committed := 3, state := 4 }

/-- Environment holding only the empty-named pool, no failures. -/
def envEmptyName : CollectEnv :=
  { lock := Except.ok [poolEmptyName], nodeName := Except.ok "node-1",
    labelFail := fun _ => false }

/-- Environment whose cache lock is poisoned. -/
def envLockFail : CollectEnv :=
  { lock := Except.error "poisoned lock", nodeName := Except.ok "node-1",
    labelFail := fun _ => false }

/-- Environment whose node-name resolution fails. -/
def envNodeFail : CollectEnv :=
  { lock := Except.ok [poolA], nodeName := Except.error "no node name",
    labelFail := fun _ => false }

/-! ### Lemmas about the retry loop -/

theorem connectLoop_all_failures {H : Type} (pre : List (AttemptOutcome H))
    (h : ∀ a ∈ pre, a.isFailure = true) (hd : H)
    (rest : List (AttemptOutcome H)) :
    connectLoop (pre ++ AttemptOutcome.success hd :: rest) =
      some (hd, pre.length, List.replicate pre.length 10) := by
  induction pre with
  | nil => rfl
  | cons a as ih =>
      have ha : a.isFailure = true := h a (List.mem_cons_self a as)
      have hrec := ih (fun x hx => h x (List.mem_cons_of_mem a hx))
      cases a with
      | timeout =>
          simp [connectLoop, hrec, List.replicate_succ]
      | transportError =>
          simp [connectLoop, hrec, List.replicate_succ]
      | success hh => simp [AttemptOutcome.isFailure] at ha

theorem connectLoop_sleeps {H : Type} (trace : List (AttemptOutcome H))
    (h : H) (n : Nat) (s : List Nat) (heq : connectLoop trace = some (h, n, s)) :
    s = List.replicate n 10 := by
  induction trace generalizing h n s with
  | nil => simp [connectLoop] at heq
  | cons a as ih =>
      cases a with
      | success hh =>
          simp [connectLoop] at heq
          simp [heq.2.1, heq.2.2]
      | timeout =>
          simp [connectLoop] at heq
          obtain ⟨h', n', s', hrec, hh, hn, hs⟩ := heq
          subst hn hs
          simp [List.replicate_succ, ih h' n' s' hrec]
      | transportError =>
          simp [connectLoop] at heq
          obtain ⟨h', n', s', hrec, hh, hn, hs⟩ := heq
          subst hn hs
          simp [List.replicate_succ, ih h' n' s' hrec]

/-! ### Gauge-vector lemmas -/

theorem gvContains_append_self (l : List (List String × Nat))
    (vals : List String) : gvContains (l ++ [(vals, 0)]) vals = true := by
  induction l with
  | nil => simp [gvContains]
  | cons c rest ih => simp [gvContains, ih]

theorem gvLookup_setVal (l : List (List String × Nat)) (vals : List String)
    (v : Nat) (h : gvContains l vals = true) :
    gvLookup (gvSetVal l vals v) vals = some v := by
  induction l with
  | nil => simp [gvContains] at h
  | cons c rest ih =>
      by_cases hc : c.1 = vals
      · simp [gvSetVal, hc, gvLookup]
      · simp [gvContains, hc] at h
        simp [gvSetVal, hc, gvLookup, ih h]

theorem GaugeVec.ensure_fqName (g : GaugeVec) (vals : List String) :
    (g.ensure vals).fqName = g.fqName := by
  unfold GaugeVec.ensure
  split <;> rfl

theorem GaugeVec.setChild_fqName (g : GaugeVec) (vals : List String) (v : Nat) :
    (g.setChild vals v).fqName = g.fqName := rfl

theorem GaugeVec.ensure_contains (g : GaugeVec) (vals : List String) :
    gvContains (g.ensure vals).children vals = true := by
  unfold GaugeVec.ensure
  split
  · assumption
  · exact gvContains_append_self g.children vals

theorem GaugeVec.childCollect_ensure_set (g : GaugeVec) (vals : List String)
    (v : Nat) :
    ((g.ensure vals).setChild vals v).childCollect vals =
      { metricName := g.fqName,
        labelPairs := (["node", "name"]).zip vals, value := v } := by
  unfold GaugeVec.childCollect
  rw [GaugeVec.setChild_fqName, GaugeVec.ensure_fqName]
  have h := gvLookup_setVal (g.ensure vals).children vals v
    (GaugeVec.ensure_contains g vals)
  simp [GaugeVec.setChild] at h ⊢
  simp [h]

/-! ### Loop characterization lemmas -/

theorem capacityLoop_eq_spec (lf : List String → Bool) (node : String)
    (pools : List PoolInfo) (self : PoolCapacityCollector)
    (h1 : self.pool_total_size.fqName = "disk_pool_total_size_bytes")
    (h2 : self.pool_used_size.fqName = "disk_pool_used_size_bytes")
    (h3 : self.pool_committed_size.fqName = "disk_pool_committed_size_bytes") :
    (capacityLoop lf node pools self).1 = capacityLoopSpec lf node pools := by
  induction pools generalizing self with
  | nil => rfl
  | cons p rest ih =>
      by_cases hf : lf [node, p.name] = true
      · simp [capacityLoop, capacityLoopSpec, hf]
      · have hf' : lf [node, p.name] = false := by
          cases hval : lf [node, p.name]
          · rfl
          · exact absurd hval hf
        simp only [capacityLoop, capacityLoopSpec, hf', Bool.false_eq_true,
          if_false]
        rw [GaugeVec.childCollect_ensure_set, GaugeVec.childCollect_ensure_set,
          GaugeVec.childCollect_ensure_set]
        rw [ih _ (by simp [GaugeVec.setChild, GaugeVec.ensure_fqName, h1])
              (by simp [GaugeVec.setChild, GaugeVec.ensure_fqName, h2])
              (by simp [GaugeVec.setChild, GaugeVec.ensure_fqName, h3])]
        simp [capacitySamples, h1, h2, h3, List.zip]

theorem statusLoop_eq_spec (lf : List String → Bool) (node : String)
    (pools : List PoolInfo) (self : PoolStatusCollector)
    (h1 : self.pool_status.fqName = "disk_pool_status") :
    (statusLoop lf node pools self).1 = statusLoopSpec lf node pools := by
  induction pools generalizing self with
  | nil => rfl
  | cons p rest ih =>
      by_cases hf : lf [node, p.name] = true
      · simp [statusLoop, statusLoopSpec, hf]
      · have hf' : lf [node, p.name] = false := by
          cases hval : lf [node, p.name]
          · rfl
          · exact absurd hval hf
        simp only [statusLoop, statusLoopSpec, hf', Bool.false_eq_true,
          if_false]
        rw [GaugeVec.childCollect_ensure_set]
        rw [ih _ (by simp [GaugeVec.setChild, GaugeVec.ensure_fqName, h1])]
        simp [statusSample, h1, List.zip]

theorem capacityLoopSpec_no_fail (lf : List String → Bool) (node : String)
    (pools : List PoolInfo)
    (h : ∀ p ∈ pools, lf [node, p.name] = false) :
    capacityLoopSpec lf node pools = pools.flatMap (capacitySamples node) := by
  induction pools with
  | nil => rfl
  | cons p rest ih =>
      have hp : lf [node, p.name] = false := h p (List.mem_cons_self p rest)
      simp [capacityLoopSpec, hp,
        ih (fun x hx => h x (List.mem_cons_of_mem p hx))]

theorem statusLoopSpec_no_fail (lf : List String → Bool) (node : String)
    (pools : List PoolInfo)
    (h : ∀ p ∈ pools, lf [node, p.name] = false) :
    statusLoopSpec lf node pools = pools.map (statusSample node) := by
  induction pools with
  | nil => rfl
  | cons p rest ih =>
      have hp : lf [node, p.name] = false := h p (List.mem_cons_self p rest)
      simp [statusLoopSpec, hp,
        ih (fun x hx => h x (List.mem_cons_of_mem p hx))]

theorem capacityLoopSpec_truncates (lf : List String → Bool) (node : String)
    (pre : List PoolInfo) (p : PoolInfo) (post : List PoolInfo)
    (hok : ∀ a ∈ pre, lf [node, a.name] = false)
    (hf : lf [node, p.name] = true) :
    capacityLoopSpec lf node (pre ++ p :: post) =
      pre.flatMap (capacitySamples node) := by
  induction pre with
  | nil => simp [capacityLoopSpec, hf]
  | cons a rest ih =>
      have ha : lf [node, a.name] = false := hok a (List.mem_cons_self a rest)
      simp [capacityLoopSpec, ha,
        ih (fun x hx => hok x (List.mem_cons_of_mem a hx))]

theorem statusLoopSpec_truncates (lf : List String → Bool) (node : String)
    (pre : List PoolInfo) (p : PoolInfo) (post : List PoolInfo)
    (hok : ∀ a ∈ pre, lf [node, a.name] = false)
    (hf : lf [node, p.name] = true) :
    statusLoopSpec lf node (pre ++ p :: post) =
      pre.map (statusSample node) := by
  induction pre with
  | nil => simp [statusLoopSpec, hf]
  | cons a rest ih =>
      have ha : lf [node, a.name] = false := hok a (List.mem_cons_self a rest)
      simp [statusLoopSpec, ha,
        ih (fun x hx => hok x (List.mem_cons_of_mem a hx))]

theorem capacitySamples_length (node : String) (pools : List PoolInfo) :
    (pools.flatMap (capacitySamples node)).length = 3 * pools.length := by
  induction pools with
  | nil => rfl
  | cons p rest ih =>
      simp [capacitySamples, ih]
      ring

theorem mem_capacityLoopSpec (lf : List String → Bool) (node : String)
    (pools : List PoolInfo) (s : Sample)
    (hs : s ∈ capacityLoopSpec lf node pools) :
    ∃ p ∈ pools, s ∈ capacitySamples node p := by
  induction pools with
  | nil => simp [capacityLoopSpec] at hs
  | cons p rest ih =>
      by_cases hf : lf [node, p.name] = true
      · simp [capacityLoopSpec, hf] at hs
      · have hf' : lf [node, p.name] = false := by
          cases hval : lf [node, p.name]
          · rfl
          · exact absurd hval hf
        simp only [capacityLoopSpec, hf', Bool.false_eq_true, if_false,
          List.mem_append] at hs
        cases hs with
        | inl h => exact ⟨p, List.mem_cons_self p rest, h⟩
        | inr h =>
            obtain ⟨q, hq, hsq⟩ := ih h
            exact ⟨q, List.mem_cons_of_mem p hq, hsq⟩

theorem mem_statusLoopSpec (lf : List String → Bool) (node : String)
    (pools : List PoolInfo) (s : Sample)
    (hs : s ∈ statusLoopSpec lf node pools) :
    ∃ p ∈ pools, s = statusSample node p := by
  induction pools with
  | nil => simp [statusLoopSpec] at hs
  | cons p rest ih =>
      by_cases hf : lf [node, p.name] = true
      · simp [statusLoopSpec, hf] at hs
      · have hf' : lf [node, p.name] = false := by
          cases hval : lf [node, p.name]
          · rfl
          · exact absurd hval hf
        simp only [statusLoopSpec, hf', Bool.false_eq_true, if_false,
          List.mem_cons] at hs
        cases hs with
        | inl h => exact ⟨p, List.mem_cons_self p rest, h⟩
        | inr h =>
            obtain ⟨q, hq, hsq⟩ := ih h
            exact ⟨q, List.mem_cons_of_mem p hq, hsq⟩

/-! ### Claim theorems: connection manager -/

/-- Claim C1: every manager returned by `GrpcClient.new` stores the given
context and populates exactly the client handle matching the context's api
version (V0 implies the v1 handle is absent, V1 implies the v0 handle is
absent); the accessor for the absent side returns a `GrpcClientError` and
the accessor for the populated side returns the stored handle. -/
theorem grpc_new_exactly_one_handle (context : GrpcContext) (env : GrpcEnv)
    (result : Except ExporterError GrpcClient) (n : Nat) (sleeps : List Nat)
    (heq : GrpcClient.new context env = some (result, n, sleeps)) :
    ∃ g : GrpcClient, result = Except.ok g ∧ g.ctx = context ∧
      (context.api_version = ApiVersion.V0 →
        g.v1_client = none ∧
        (∃ c, g.v0_client = some c ∧ g.client_v0 = Except.ok c) ∧
        g.client_v1 = Except.error
          (ExporterError.GrpcClientError "Could not get v1 client")) ∧
      (context.api_version = ApiVersion.V1 →
        g.v0_client = none ∧
        (∃ c, g.v1_client = some c ∧ g.client_v1 = Except.ok c) ∧
        g.client_v0 = Except.error
          (ExporterError.GrpcClientError "Could not get v0 client")) := by
  cases hv : context.api_version with
  | V0 =>
      simp only [GrpcClient.new, hv] at heq
      cases hloop : connectLoop env.v0Attempts with
      | none => rw [hloop] at heq; simp at heq
      | some r =>
          rw [hloop] at heq
          simp only [Option.map_some', Option.some.injEq, Prod.mk.injEq]
            at heq
          obtain ⟨hres, hn, hs⟩ := heq
          subst hres
          refine ⟨_, rfl, rfl, fun _ => ?_, fun hc => by simp [hv] at hc⟩
          exact ⟨rfl, ⟨r.1, rfl, rfl⟩, rfl⟩
  | V1 =>
      simp only [GrpcClient.new, hv] at heq
      cases hloop : connectLoop env.v1Attempts with
      | none => rw [hloop] at heq; simp at heq
      | some r =>
          rw [hloop] at heq
          simp only [Option.map_some', Option.some.injEq, Prod.mk.injEq]
            at heq
          obtain ⟨hres, hn, hs⟩ := heq
          subst hres
          refine ⟨_, rfl, rfl, fun hc => by simp [hv] at hc, fun _ => ?_⟩
          exact ⟨rfl, ⟨{ pool := r.1 }, rfl, rfl⟩, rfl⟩

/-- Witness for C1: the concrete V0 run `GrpcClient.new ctxW0 envW0`
produces `gW0`, whose v1 side is absent and errors while the v0 side holds
the connected handle. -/
theorem grpc_new_exactly_one_handle_witness :
    gW0.v1_client = none ∧
    gW0.client_v0 = Except.ok { id := 7 } ∧
    gW0.client_v1 = Except.error
      (ExporterError.GrpcClientError "Could not get v1 client") := by
  obtain ⟨g, hres, hctx, hv0, hv1⟩ :=
    grpc_new_exactly_one_handle ctxW0 envW0 (Except.ok gW0) 2 [10, 10]
      (by decide)
  obtain ⟨habs, ⟨c, hc, hacc⟩, herr⟩ := hv0 rfl
  have hg : gW0 = g := Except.ok.inj hres
  have hcval : c = { id := 7 } := by
    rw [← hg] at hc
    exact Option.some.inj hc.symm
  subst hg
  exact ⟨habs, by rw [hacc, hcval], herr⟩

/-- Claim C2: `GrpcClient.new` never returns an error — whenever it
returns, the result is `Ok` and the sleeps performed are one fixed
10-second sleep per failed attempt — and for a transport behaviour that
fails the first N connect attempts (by timeout or transport error) and then
succeeds, it returns the successful handle after exactly N failed attempts
and N fixed 10-second sleeps; with N = 0 it returns immediately with no
sleeps. -/
theorem grpc_new_retry_convergence (context : GrpcContext) (env : GrpcEnv) :
    (∀ result n sleeps,
      GrpcClient.new context env = some (result, n, sleeps) →
      (∃ g, result = Except.ok g) ∧ sleeps = List.replicate n 10) ∧
    (∀ (pre : List (AttemptOutcome MayaClientV0)) (h : MayaClientV0)
        (rest : List (AttemptOutcome MayaClientV0)),
      context.api_version = ApiVersion.V0 →
      (∀ a ∈ pre, a.isFailure = true) →
      env.v0Attempts = pre ++ AttemptOutcome.success h :: rest →
      GrpcClient.new context env =
        some (Except.ok
          { ctx := context, v0_client := some h, v1_client := none },
          pre.length, List.replicate pre.length 10)) ∧
    (∀ (pre : List (AttemptOutcome PoolClient)) (h : PoolClient)
        (rest : List (AttemptOutcome PoolClient)),
      context.api_version = ApiVersion.V1 →
      (∀ a ∈ pre, a.isFailure = true) →
      env.v1Attempts = pre ++ AttemptOutcome.success h :: rest →
      GrpcClient.new context env =
        some (Except.ok
          { ctx := context, v0_client := none,
            v1_client := some { pool := h } },
          pre.length, List.replicate pre.length 10)) := by
  refine ⟨?_, ?_, ?_⟩
  · intro result n sleeps heq
    cases hv : context.api_version with
    | V0 =>
        simp only [GrpcClient.new, hv] at heq
        cases hloop : connectLoop env.v0Attempts with
        | none => rw [hloop] at heq; simp at heq
        | some r =>
            rw [hloop] at heq
            simp only [Option.map_some', Option.some.injEq, Prod.mk.injEq]
              at heq
            obtain ⟨hres, hn, hs⟩ := heq
            subst hres hn hs
            exact ⟨⟨_, rfl⟩, connectLoop_sleeps _ r.1 r.2.1 r.2.2 hloop⟩
    | V1 =>
        simp only [GrpcClient.new, hv] at heq
        cases hloop : connectLoop env.v1Attempts with
        | none => rw [hloop] at heq; simp at heq
        | some r =>
            rw [hloop] at heq
            simp only [Option.map_some', Option.some.injEq, Prod.mk.injEq]
              at heq
            obtain ⟨hres, hn, hs⟩ := heq
            subst hres hn hs
            exact ⟨⟨_, rfl⟩, connectLoop_sleeps _ r.1 r.2.1 r.2.2 hloop⟩
  · intro pre h rest hv hfail henv
    simp only [GrpcClient.new, hv, henv,
      connectLoop_all_failures pre hfail h rest, Option.map_some']
  · intro pre h rest hv hfail henv
    simp only [GrpcClient.new, hv, henv,
      connectLoop_all_failures pre hfail h rest, Option.map_some']

/-- Witness for C2: the concrete V0 behaviour of two failures then success
makes `GrpcClient.new` return the connected manager after exactly two
failed attempts and two 10-second sleeps. -/
theorem grpc_new_retry_convergence_witness :
    GrpcClient.new ctxW0 envW0 =
      some (Except.ok
        { ctx := ctxW0, v0_client := some { id := 7 }, v1_client := none },
        2, List.replicate 2 10) :=
  (grpc_new_retry_convergence ctxW0 envW0).2.1
    [AttemptOutcome.timeout, AttemptOutcome.transportError] { id := 7 } []
    rfl (by decide) rfl

/-! ### Claim theorems: pool collectors -/

/-- Claim C3: when the cache lock is acquired, node-name resolution
succeeds, and no labeling error occurs, a cache of k pool entities makes
`PoolCapacityCollector.collect` return exactly 3·k samples and
`PoolStatusCollector.collect` exactly k samples, from any accumulated gauge
state. -/
theorem pool_collect_completeness (env : CollectEnv) (pools : List PoolInfo)
    (node : String) (c1 c2 c3 cs : List (List String × Nat))
    (hl : env.lock = Except.ok pools) (hn : env.nodeName = Except.ok node)
    (hfail : ∀ p ∈ pools, env.labelFail [node, p.name] = false) :
    ((PoolCapacityCollector.withChildren c1 c2 c3).collect env).1.length =
      3 * pools.length ∧
    ((PoolStatusCollector.withChildren cs).collect env).1.length =
      pools.length := by
  constructor
  · simp only [PoolCapacityCollector.collect, hl, hn]
    rw [capacityLoop_eq_spec _ _ _ _ rfl rfl rfl,
      capacityLoopSpec_no_fail _ _ _ hfail, capacitySamples_length]
  · simp only [PoolStatusCollector.collect, hl, hn]
    rw [statusLoop_eq_spec _ _ _ _ rfl,
      statusLoopSpec_no_fail _ _ _ hfail]
    simp

/-- Witness for C3 on the scenario cache of two pools: 6 capacity samples
and 2 status samples. -/
theorem pool_collect_completeness_witness :
    ((PoolCapacityCollector.withChildren [] [] []).collect
        envScenario).1.length = 3 * [poolA, poolB].length ∧
    ((PoolStatusCollector.withChildren []).collect
        envScenario).1.length = [poolA, poolB].length :=
  pool_collect_completeness envScenario [poolA, poolB] "node-1" [] [] [] []
    rfl rfl (by decide)

/-- Claim C4: when the pools before index j label successfully and the j-th
pool entity triggers a labeling error, both collectors return exactly the
samples of the entities before index j (3·j samples for the capacity
collector, j for the status collector). -/
theorem pool_collect_truncation (env : CollectEnv) (pre : List PoolInfo)
    (p : PoolInfo) (post : List PoolInfo) (node : String)
    (c1 c2 c3 cs : List (List String × Nat))
    (hl : env.lock = Except.ok (pre ++ p :: post))
    (hn : env.nodeName = Except.ok node)
    (hok : ∀ a ∈ pre, env.labelFail [node, a.name] = false)
    (hf : env.labelFail [node, p.name] = true) :
    ((PoolCapacityCollector.withChildren c1 c2 c3).collect env).1 =
      pre.flatMap (capacitySamples node) ∧
    ((PoolStatusCollector.withChildren cs).collect env).1 =
      pre.map (statusSample node) ∧
    ((PoolCapacityCollector.withChildren c1 c2 c3).collect env).1.length =
      3 * pre.length ∧
    ((PoolStatusCollector.withChildren cs).collect env).1.length =
      pre.length := by
  have hcap :
      ((PoolCapacityCollector.withChildren c1 c2 c3).collect env).1 =
        pre.flatMap (capacitySamples node) := by
    simp only [PoolCapacityCollector.collect, hl, hn]
    rw [capacityLoop_eq_spec _ _ _ _ rfl rfl rfl,
      capacityLoopSpec_truncates _ _ _ _ _ hok hf]
  have hst :
      ((PoolStatusCollector.withChildren cs).collect env).1 =
        pre.map (statusSample node) := by
    simp only [PoolStatusCollector.collect, hl, hn]
    rw [statusLoop_eq_spec _ _ _ _ rfl,
      statusLoopSpec_truncates _ _ _ _ _ hok hf]
  refine ⟨hcap, hst, ?_, ?_⟩
  · rw [hcap, capacitySamples_length]
  · rw [hst, List.length_map]

/-- Witness for C4: labeling fails on `pool-b` (index 1), so the collectors
return only the samples of `pool-a`. -/
theorem pool_collect_truncation_witness :
    ((PoolCapacityCollector.withChildren [] [] []).collect envFailB).1 =
      [poolA].flatMap (capacitySamples "node-1") ∧
    ((PoolStatusCollector.withChildren []).collect envFailB).1 =
      [poolA].map (statusSample "node-1") ∧
    ((PoolCapacityCollector.withChildren [] [] []).collect
        envFailB).1.length = 3 * [poolA].length ∧
    ((PoolStatusCollector.withChildren []).collect envFailB).1.length =
      [poolA].length :=
  pool_collect_truncation envFailB [poolA] poolB [] "node-1" [] [] [] []
    rfl rfl (by decide) (by decide)

theorem capacitySamples_labelPairs (node : String) (p : PoolInfo)
    (s : Sample) (hs : s ∈ capacitySamples node p) :
    s.labelPairs = [("node", node), ("name", p.name)] := by
  simp only [capacitySamples, List.mem_cons, List.mem_singleton] at hs
  rcases hs with h | h | h | h
  · simp [h]
  · simp [h]
  · simp [h]
  · simp at h

/-- Counterexample to Claim C5 as stated: with a cached pool whose name is
the empty string, the capacity collector emits samples whose `name` label
value is empty, so the "no sample is emitted with an empty label" part of
the claim fails on the code. -/
theorem pool_collect_label_empty_cex :
    (PoolCapacityCollector.new.collect envEmptyName).1 =
      [ { metricName := "disk_pool_total_size_bytes",
          labelPairs := [("node", "node-1"), ("name", "")], value := 1 },
        { metricName := "disk_pool_used_size_bytes",
          labelPairs := [("node", "node-1"), ("name", "")], value := 2 },
        { metricName := "disk_pool_committed_size_bytes",
          labelPairs := [("node", "node-1"), ("name", "")], value := 3 } ] := by
  decide

/-- Claim C5 (amended): every sample emitted by either collector carries
exactly the label tuple `[("node", resolved node name), ("name", entity
name)]` for some entity of the current cache — both labels always present
and never mismatched; a label value can be empty only when the resolved
node name or that entity's name is itself the empty string. -/
theorem pool_collect_label_correct (env : CollectEnv)
    (pools : List PoolInfo) (node : String)
    (c1 c2 c3 cs : List (List String × Nat))
    (hl : env.lock = Except.ok pools) (hn : env.nodeName = Except.ok node) :
    (∀ s ∈ ((PoolCapacityCollector.withChildren c1 c2 c3).collect env).1,
      ∃ p ∈ pools, s.labelPairs = [("node", node), ("name", p.name)]) ∧
    (∀ s ∈ ((PoolStatusCollector.withChildren cs).collect env).1,
      ∃ p ∈ pools, s.labelPairs = [("node", node), ("name", p.name)]) := by
  constructor
  · intro s hs
    simp only [PoolCapacityCollector.collect, hl, hn] at hs
    rw [capacityLoop_eq_spec _ _ _ _ rfl rfl rfl] at hs
    obtain ⟨p, hp, hsp⟩ := mem_capacityLoopSpec _ _ _ _ hs
    exact ⟨p, hp, capacitySamples_labelPairs _ _ _ hsp⟩
  · intro s hs
    simp only [PoolStatusCollector.collect, hl, hn] at hs
    rw [statusLoop_eq_spec _ _ _ _ rfl] at hs
    obtain ⟨p, hp, hsp⟩ := mem_statusLoopSpec _ _ _ _ hs
    exact ⟨p, hp, by simp [hsp, statusSample]⟩

/-- Witness for C5 (amended) on the scenario: the first capacity sample of
the run carries exactly the labels (node-1, pool-a). -/
theorem pool_collect_label_correct_witness :
    ∃ p ∈ [poolA, poolB],
      ({ metricName := "disk_pool_total_size_bytes",
         labelPairs := [("node", "node-1"), ("name", "pool-a")],
         value := 1000 } : Sample).labelPairs =
        [("node", "node-1"), ("name", p.name)] :=
  (pool_collect_label_correct envScenario [poolA, poolB] "node-1"
      [] [] [] [] rfl rfl).1 _ (by decide)

/-- Claim C6: absent failures, the capacity collector emits per pool three
gauge samples valued with the pool's capacity, used, and committed byte
counts, and the status collector one sample valued with the numeric state;
on the scenario cache (`pool-a`, `pool-b` on `node-1`) the capacity
collector returns 6 samples including total_size_bytes = 1000 for
(node-1, pool-a), and the status collector includes status = 0 for
(node-1, pool-b). -/
theorem pool_collect_sample_values :
    (∀ (env : CollectEnv) (pools : List PoolInfo) (node : String)
        (c1 c2 c3 cs : List (List String × Nat)),
      env.lock = Except.ok pools → env.nodeName = Except.ok node →
      (∀ p ∈ pools, env.labelFail [node, p.name] = false) →
      ((PoolCapacityCollector.withChildren c1 c2 c3).collect env).1 =
        pools.flatMap (capacitySamples node) ∧
      ((PoolStatusCollector.withChildren cs).collect env).1 =
        pools.map (statusSample node)) ∧
    (PoolCapacityCollector.new.collect envScenario).1.length = 6 ∧
    { metricName := "disk_pool_total_size_bytes",
      labelPairs := [("node", "node-1"), ("name", "pool-a")],
      value := 1000 } ∈ (PoolCapacityCollector.new.collect envScenario).1 ∧
    { metricName := "disk_pool_status",
      labelPairs := [("node", "node-1"), ("name", "pool-b")],
      value := 0 } ∈ (PoolStatusCollector.new.collect envScenario).1 := by
  refine ⟨?_, by decide, by decide, by decide⟩
  intro env pools node c1 c2 c3 cs hl hn hfail
  constructor
  · simp only [PoolCapacityCollector.collect, hl, hn]
    rw [capacityLoop_eq_spec _ _ _ _ rfl rfl rfl,
      capacityLoopSpec_no_fail _ _ _ hfail]
  · simp only [PoolStatusCollector.collect, hl, hn]
    rw [statusLoop_eq_spec _ _ _ _ rfl,
      statusLoopSpec_no_fail _ _ _ hfail]

/-- Witness for C6 instantiating the universally quantified part on the
scenario environment. -/
theorem pool_collect_sample_values_witness :
    ((PoolCapacityCollector.withChildren [] [] []).collect envScenario).1 =
      [poolA, poolB].flatMap (capacitySamples "node-1") ∧
    ((PoolStatusCollector.withChildren []).collect envScenario).1 =
      [poolA, poolB].map (statusSample "node-1") :=
  pool_collect_sample_values.1 envScenario [poolA, poolB] "node-1"
    [] [] [] [] rfl rfl (by decide)

/-- Claim C7: if cache-lock acquisition fails, both collectors return the
empty sequence; if node-name resolution fails after the lock is acquired,
they also return the empty sequence; in both cases `collect` returns
normally to its caller (the embedded function is total and the error value
is dropped). -/
theorem pool_collect_error_degradation (env : CollectEnv)
    (selfC : PoolCapacityCollector) (selfS : PoolStatusCollector) :
    (∀ e, env.lock = Except.error e →
      (selfC.collect env).1 = [] ∧ (selfS.collect env).1 = []) ∧
    (∀ pools e, env.lock = Except.ok pools →
      env.nodeName = Except.error e →
      (selfC.collect env).1 = [] ∧ (selfS.collect env).1 = []) := by
  constructor
  · intro e he
    simp [PoolCapacityCollector.collect, PoolStatusCollector.collect, he]
  · intro pools e hl hn
    simp [PoolCapacityCollector.collect, PoolStatusCollector.collect,
      hl, hn]

/-- Witness for C7: a poisoned lock and a failed node-name resolution each
yield empty output on concrete environments. -/
theorem pool_collect_error_degradation_witness :
    ((PoolCapacityCollector.new.collect envLockFail).1 = [] ∧
      (PoolStatusCollector.new.collect envLockFail).1 = []) ∧
    ((PoolCapacityCollector.new.collect envNodeFail).1 = [] ∧
      (PoolStatusCollector.new.collect envNodeFail).1 = []) :=
  ⟨(pool_collect_error_degradation envLockFail
      PoolCapacityCollector.new PoolStatusCollector.new).1
      "poisoned lock" rfl,
   (pool_collect_error_degradation envNodeFail
      PoolCapacityCollector.new PoolStatusCollector.new).2
      [poolA] "no node name" rfl rfl⟩

/-- Claim C8: the snapshot returned by `collect` is a function of the
current cache contents and resolved node name alone: from any two
accumulated gauge-vector states (children left by earlier scrapes,
including pools no longer cached) the same environment yields the same
sample sequence, and every emitted sample carries the name of a pool in the
current cache. -/
theorem pool_collect_snapshot_fresh (env : CollectEnv)
    (c1 c2 c3 c1' c2' c3' cs cs' : List (List String × Nat)) :
    ((PoolCapacityCollector.withChildren c1 c2 c3).collect env).1 =
      ((PoolCapacityCollector.withChildren c1' c2' c3').collect env).1 ∧
    ((PoolStatusCollector.withChildren cs).collect env).1 =
      ((PoolStatusCollector.withChildren cs').collect env).1 ∧
    (∀ s ∈ ((PoolCapacityCollector.withChildren c1 c2 c3).collect env).1,
      ∃ pools, env.lock = Except.ok pools ∧
        ∃ p ∈ pools, ("name", p.name) ∈ s.labelPairs) ∧
    (∀ s ∈ ((PoolStatusCollector.withChildren cs).collect env).1,
      ∃ pools, env.lock = Except.ok pools ∧
        ∃ p ∈ pools, ("name", p.name) ∈ s.labelPairs) := by
  refine ⟨?_, ?_, ?_, ?_⟩
  · cases hl : env.lock with
    | error e => simp [PoolCapacityCollector.collect, hl]
    | ok pools =>
        cases hn : env.nodeName with
        | error e => simp [PoolCapacityCollector.collect, hl, hn]
        | ok node =>
            simp only [PoolCapacityCollector.collect, hl, hn]
            rw [capacityLoop_eq_spec _ _ _ _ rfl rfl rfl,
              capacityLoop_eq_spec _ _ _ _ rfl rfl rfl]
  · cases hl : env.lock with
    | error e => simp [PoolStatusCollector.collect, hl]
    | ok pools =>
        cases hn : env.nodeName with
        | error e => simp [PoolStatusCollector.collect, hl, hn]
        | ok node =>
            simp only [PoolStatusCollector.collect, hl, hn]
            rw [statusLoop_eq_spec _ _ _ _ rfl,
              statusLoop_eq_spec _ _ _ _ rfl]
  · intro s hs
    cases hl : env.lock with
    | error e => simp [PoolCapacityCollector.collect, hl] at hs
    | ok pools =>
        cases hn : env.nodeName with
        | error e => simp [PoolCapacityCollector.collect, hl, hn] at hs
        | ok node =>
            refine ⟨pools, rfl, ?_⟩
            simp only [PoolCapacityCollector.collect, hl, hn] at hs
            rw [capacityLoop_eq_spec _ _ _ _ rfl rfl rfl] at hs
            obtain ⟨p, hp, hsp⟩ := mem_capacityLoopSpec _ _ _ _ hs
            refine ⟨p, hp, ?_⟩
            rw [capacitySamples_labelPairs _ _ _ hsp]
            simp
  · intro s hs
    cases hl : env.lock with
    | error e => simp [PoolStatusCollector.collect, hl] at hs
    | ok pools =>
        cases hn : env.nodeName with
        | error e => simp [PoolStatusCollector.collect, hl, hn] at hs
        | ok node =>
            refine ⟨pools, rfl, ?_⟩
            simp only [PoolStatusCollector.collect, hl, hn] at hs
            rw [statusLoop_eq_spec _ _ _ _ rfl] at hs
            obtain ⟨p, hp, hsp⟩ := mem_statusLoopSpec _ _ _ _ hs
            refine ⟨p, hp, ?_⟩
            simp [hsp, statusSample]

/-- Witness for C8: stale children from an earlier scrape (a pool no longer
cached) do not change the scenario snapshot, and a concrete emitted sample
names a currently cached pool. -/
theorem pool_collect_snapshot_fresh_witness :
    ((PoolCapacityCollector.withChildren
        [(["stale-node", "stale-pool"], 99)] [] []).collect envScenario).1 =
      ((PoolCapacityCollector.withChildren [] [] []).collect
        envScenario).1 ∧
    (∃ pools, envScenario.lock = Except.ok pools ∧
      ∃ p ∈ pools, ("name", p.name) ∈
        ({ metricName := "disk_pool_total_size_bytes",
           labelPairs := [("node", "node-1"), ("name", "pool-a")],
           value := 1000 } : Sample).labelPairs) :=
  ⟨(pool_collect_snapshot_fresh envScenario
      [(["stale-node", "stale-pool"], 99)] [] [] [] [] [] [] []).1,
   (pool_collect_snapshot_fresh envScenario
      [(["stale-node", "stale-pool"], 99)] [] [] [] [] [] [] []).2.2.1
      _ (by decide)⟩

/-! ### Claim theorems: diagnostic log sink -/

/-- Claim C9: the diagnostic `log` never fails its caller: for every
content string, every state of the log-file cell (uninitialised,
initialised with a file, initialised with no file), and every write
behaviour, it returns normally with the content printed to the console,
absorbing any write-to-file error as one further console line. -/
theorem log_never_fails (cell : LogCell)
    (writeAll : File → String → Except IoError Unit) (content : String) :
    log cell writeAll content = [content] ∨
    ∃ e, write_to_log_file cell writeAll (content ++ "\n") =
        Except.error e ∧
      log cell writeAll content =
        [content,
          "Not be able to write to log file, error: " ++ e.message] := by
  unfold log
  cases hw : write_to_log_file cell writeAll (content ++ "\n") with
  | ok u => left; rfl
  | error e => right; exact ⟨e, rfl, rfl⟩

/-- Counterexample to Claim C10 as stated: with the cell already
initialised (here with no log file) and file creation failing,
`init_tool_log_file` returns the I/O error instead of panicking, because
`File::create(file_path)?` runs and returns before the once-cell is
touched. -/
theorem init_after_set_cex :
    init_tool_log_file (some none)
        (Except.error (IoError.createFailed 13)) =
      InitOutcome.returns (Except.error (IoError.createFailed 13))
        (some none) ∧
    init_tool_log_file (some none)
        (Except.error (IoError.createFailed 13)) ≠
      InitOutcome.panics := by
  refine ⟨rfl, ?_⟩
  decide

/-- Claim C10 (amended): the log-file cell is initialised at most once.
When the cell is unset, `init_tool_log_file` sets it and returns `Ok` on
successful file creation, or returns the creation error leaving the cell
unset, and `init_no_log_file` sets it and returns.  When the cell is
already set, `init_no_log_file` always panics; `init_tool_log_file` panics
when file creation succeeds, but when file creation fails it returns the
creation error (leaving the cell unchanged) instead of panicking. -/
theorem init_once_semantics (cell : LogCell) (f : File) (e : IoError) :
    (cell = none →
      init_tool_log_file cell (Except.ok f) =
        InitOutcome.returns (Except.ok ()) (some (some f)) ∧
      init_tool_log_file cell (Except.error e) =
        InitOutcome.returns (Except.error e) none ∧
      init_no_log_file cell =
        InitOutcome.returns (Except.ok ()) (some none)) ∧
    (∀ c, cell = some c →
      init_no_log_file cell = InitOutcome.panics ∧
      init_tool_log_file cell (Except.ok f) = InitOutcome.panics ∧
      init_tool_log_file cell (Except.error e) =
        InitOutcome.returns (Except.error e) cell) := by
  constructor
  · intro hc
    subst hc
    exact ⟨rfl, rfl, rfl⟩
  · intro c hc
    subst hc
    exact ⟨rfl, rfl, rfl⟩

/-- Witness for C10 (amended) at concrete cell states: a first
initialisation succeeds, and a second one panics. -/
theorem init_once_semantics_witness :
    (init_tool_log_file none (Except.ok { id := 1 }) =
      InitOutcome.returns (Except.ok ()) (some (some { id := 1 }))) ∧
    (init_no_log_file (some (some { id := 1 })) = InitOutcome.panics) :=
  ⟨((init_once_semantics none { id := 1 } (IoError.createFailed 13)).1
      rfl).1,
   ((init_once_semantics (some (some { id := 1 })) { id := 1 }
      (IoError.createFailed 13)).2 (some { id := 1 }) rfl).1⟩
